import Mathlib

/-!
Verification of the pbrsdk PocketBase client SDK (Rust) against its
natural-language specification, via a shallow embedding in Lean 4.

Conventions of the embedding:
* Rust `Result<A, ApiError>` becomes `Except ApiError A`.
* A Rust code path that panics (`unwrap()` on `None`/`Err`) is modelled by
  returning `none` in an `Option`-wrapped result: `none` means "the call
  aborts the process" and `some r` means "the call returns `r`".
* Machine integers (`u64`, `u16`, `usize`) become `Nat`; `i64` becomes `Int`.
* Calls into external crates (serde JSON parsing, base64 decoding, UTF-8
  decoding) are parameters of the model: each is passed in as a function
  `input → Option output` (`none` = the library call fails).
* The unbounded `loop` of `get_full_list` is given explicit fuel; running
  out of fuel yields `none` (the Rust loop would still be running).

The repository contains two revisions of several functions: an older one in
`src/pocketbase.rs` and a newer one in `src/services/record_service.rs` +
`src/common.rs`.  Where the two differ, both are embedded (the older one
under a `_pb`/`Collection` name).
-/

deriving instance DecidableEq for Except

namespace Pbrsdk

/-- Error type of the SDK, from `src/error.rs` (`ApiError`).  The HTTP status
code carried by `Http` is a `Nat` (Rust `reqwest::StatusCode`); the opaque
`reqwest::Error` payload of the transport variant is abstracted to a tag. -/
inductive ApiError where
  | http : Nat → String → ApiError
  | reqwest : String → ApiError
  | jwt : ApiError
deriving DecidableEq, Repr

/-- Expected error body shape, from `src/common.rs` (`ResponseError`):
`message: String`, `status: u16`. -/
structure ResponseError where
  message : String
  status : Nat
deriving DecidableEq, Repr

/-- Model of `reqwest::StatusCode::from_u16`: succeeds exactly for values in
the representable HTTP range 100..=999, fails otherwise. -/
def statusCodeFromU16 (n : Nat) : Option Nat :=
  if 100 ≤ n ∧ n ≤ 999 then some n else none

/-- Server response for a list request, from `src/services/record_service.rs`
(`ListResponse<T>`): `total_items`/`total_pages` are `i64` (`-1` sentinel when
totals are skipped), hence `Int`. -/
structure ListResponse (T : Type) where
  items : List T
  page : Nat
  per_page : Nat
  total_items : Int
  total_pages : Int
deriving DecidableEq, Repr

/-- View options, from `src/common.rs` (`ViewOptions`). -/
structure ViewOptions where
  fields : Option String
  expand : Option String
  sort : Option String
deriving DecidableEq, Repr

/-- List query options, from `src/common.rs` (`ListOptions`). -/
structure ListOptions where
  page : Option Nat
  per_page : Option Nat
  skip_total : Option Bool
  filter : Option String
  fields : Option String
  expand : Option String
  sort : Option String
deriving DecidableEq, Repr

/-- `ListOptions::default()`: every field unset. -/
def ListOptions.default : ListOptions :=
  { page := none, per_page := none, skip_total := none, filter := none,
    fields := none, expand := none, sort := none }

/-- From `src/common.rs`, `ListOptions::paginated_and_skip`: page and
per-page set, `skip_total` set to `true`, everything else defaulted. -/
def ListOptions.paginated_and_skip (page : Nat) (per_page : Nat) : ListOptions :=
  { ListOptions.default with
    page := some page,
    per_page := some per_page,
    skip_total := some true }

/-- From `src/common.rs`, `ListOptions::from_view` (the newer revision):
copies `fields`/`expand`/`sort` out of the view options when they are
present (`is_some()` guard, then `unwrap()`), leaves them unset otherwise,
and forces `skip_total = Some(true)`. -/
def ListOptions.from_view (page : Option Nat) (per_page : Option Nat)
    (filter : Option String) (view_options : Option ViewOptions) : ListOptions :=
  { page := page, per_page := per_page, filter := filter,
    fields := match view_options with
      | some vo => vo.fields
      | none => none,
    expand := match view_options with
      | some vo => vo.expand
      | none => none,
    sort := match view_options with
      | some vo => vo.sort
      | none => none,
    skip_total := some true }

/-- From `src/pocketbase.rs`, the older revision of `ListOptions::from_view`.
Its guards are inverted (`if view_options.as_ref().is_none() {
view_options.as_ref().unwrap().fields.clone() } else { None }`): when
`view_options` is `None` the `unwrap()` panics (modelled by `none`), and when
it is `Some` the three view fields are dropped to `None`. -/
def ListOptions.from_view_pb (page : Option Nat) (per_page : Option Nat)
    (filter : Option String) (view_options : Option ViewOptions) : Option ListOptions :=
  match view_options with
  | none => none
  | some _ =>
    some { page := page, per_page := per_page, filter := filter,
           fields := none, expand := none, sort := none,
           skip_total := some true }

/-- Model of Rust `str::strip_suffix` over the character sequence of the
string: `Some` of the string with the suffix removed when the suffix
matches, `None` otherwise. -/
def stripSuffix (s : String) (suffix : String) : Option String :=
  if suffix.data.isSuffixOf s.data then
    some (String.mk (s.data.take (s.data.length - suffix.data.length)))
  else
    none

/-- From `src/pocketbase.rs`, `PocketBase::new`:
`base_url.into().strip_suffix("/").unwrap()`.  The returned string is the
`base_url` stored in the constructed instance; the function always returns
`Ok` when it does not panic, and the `unwrap()` panics (`none`) when the
input has no trailing slash. -/
def PocketBase.new (base_url : String) : Option String :=
  stripSuffix base_url "/"

/-- Decoded bearer-token payload, from `src/auth.rs` (`JwtPayload`):
token type, embedded collection id, refreshable flag, subject id and
expiry in seconds since epoch (`u64`). -/
structure JwtPayload where
  token_type : String
  collection_id : String
  refreshable : Bool
  id : String
  exp : Nat
deriving DecidableEq, Repr

/-- External base64url-no-padding decoder (the `base64` crate):
string → bytes, failing on invalid input. -/
abbrev B64Decoder := String → Option (List Nat)

/-- External UTF-8 decoder (`String::from_utf8`): bytes → string. -/
abbrev Utf8Decoder := List Nat → Option String

/-- External JSON parse of the payload (`serde_json::from_str::<JwtPayload>`). -/
abbrev JwtParse := String → Option JwtPayload

/-- Model of Rust `str::split(char)` over the character sequence: splitting
an empty string yields one empty segment, and a trailing separator yields a
trailing empty segment, as in Rust. -/
def splitChar (c : Char) : List Char → List (List Char)
  | [] => [[]]
  | x :: xs =>
    if x = c then [] :: splitChar c xs
    else
      match splitChar c xs with
      | [] => [[x]]
      | y :: ys => (x :: y) :: ys

/-- From `src/auth.rs`, `get_token_payload`: split the token on `'.'`, take
segment index 1, base64url-decode it without padding, UTF-8-decode the bytes,
parse the JSON as `JwtPayload`; any failure yields `Err(ApiError::Jwt())`
(modelled as `none`). -/
def get_token_payload (b64 : B64Decoder) (utf8 : Utf8Decoder) (parse : JwtParse)
    (token : String) : Option JwtPayload :=
  match (splitChar '.' token.data).get? 1 with
  | none => none
  | some seg =>
    let payload := String.mk seg
    match b64 payload with
    | none => none
    | some decoded =>
      match utf8 decoded with
      | none => none
      | some decoded_str => parse decoded_str

/-- From `src/auth.rs`, `is_token_expired`: returns `false` only when the
payload decodes and its `exp` is strictly greater than the current
seconds-since-epoch; in every other case (including any decode failure)
returns `true`. -/
def is_token_expired (b64 : B64Decoder) (utf8 : Utf8Decoder) (parse : JwtParse)
    (now : Nat) (token : String) : Bool :=
  match get_token_payload b64 utf8 parse token with
  | some payload => if payload.exp > now then false else true
  | none => true

/-- Auth store of the older revision, from `src/auth.rs` (`AuthStore<T>`):
token, decoded record, and the authenticated collection's name and id. -/
structure AuthStore (T : Type) where
  token : Option String
  record : Option T
  collection_name : Option String
  collection_id : Option String
deriving DecidableEq, Repr

/-- From `src/auth.rs`, `AuthStore::is_some`: all four fields jointly present. -/
def AuthStore.is_some {T : Type} (s : AuthStore T) : Bool :=
  s.token.isSome && s.record.isSome && s.collection_id.isSome && s.collection_name.isSome

/-- From `src/auth.rs`, `AuthStore::is_valid`:
`self.is_some() && !is_token_expired(self.token.as_ref().unwrap())`.
The `unwrap()` is guarded by the short-circuiting `is_some()`, so the
`none` branch below is unreachable. -/
def AuthStore.is_valid {T : Type} (b64 : B64Decoder) (utf8 : Utf8Decoder)
    (parse : JwtParse) (now : Nat) (s : AuthStore T) : Bool :=
  s.is_some && (match s.token with
    | some t => !(is_token_expired b64 utf8 parse now t)
    | none => false)

/-- From `src/auth.rs`, `AuthStore::is_superuser`: `false` unless the store
is fully populated; otherwise decode the token payload and require
`token_type == "auth"` and (collection name `"_superusers"` or payload
collection id `"pbc_3142635823"`); decode failure gives `false`.  The
`unwrap()`s on `token` and `collection_name` are guarded by `is_some()`. -/
def AuthStore.is_superuser {T : Type} (b64 : B64Decoder) (utf8 : Utf8Decoder)
    (parse : JwtParse) (s : AuthStore T) : Bool :=
  if !s.is_some then false
  else
    match s.token with
    | none => false
    | some t =>
      match get_token_payload b64 utf8 parse t with
      | some payload =>
        payload.token_type == "auth" &&
          ((match s.collection_name with
            | some n => n == "_superusers"
            | none => false) || payload.collection_id == "pbc_3142635823")
      | none => false

/-- Modelled from the spec: the newer revision's auth store (the `AuthStore`
used by `src/services/record_service.rs`, whose defining module is not in
`src/`; only `src/src/auth.rs` of the older revision is).  Per §3 of the
spec it additionally holds `record_id: Option<string>`, and its callers in
`src/services/record_service.rs` use `record_id` and `set_record_id`. -/
structure AuthStoreV2 (T : Type) where
  token : Option String
  record : Option T
  collection_name : Option String
  collection_id : Option String
  record_id : Option String
deriving DecidableEq, Repr

/-- Modelled from the spec: `is_some` of the newer revision's auth store.
Per §3, it "checks the four non-record-id fields are jointly present". -/
def AuthStoreV2.is_some {T : Type} (s : AuthStoreV2 T) : Bool :=
  s.token.isSome && s.record.isSome && s.collection_id.isSome && s.collection_name.isSome

/-- Generic auth endpoint response, from `src/auth.rs` (`AuthResponse<T>`). -/
structure AuthResponse (T : Type) where
  record : T
  token : String
deriving DecidableEq, Repr

/-- Minimal decode target of the older revision, from `src/auth.rs`
(`DefaultAuthResponseRecord`): just the collection id and name. -/
structure DefaultAuthResponseRecord where
  collection_id : String
  collection_name : String
deriving DecidableEq, Repr

/-- Modelled from the spec: the newer revision's `DefaultAuthResponseRecord`
(its defining module is not in `src/`).  Its caller
`src/services/record_service.rs` reads `collection_id`, `collection_name`
and `id` from it, matching the spec's "just give me collection id/name"
minimal shape carrying the identity fields. -/
structure DefaultAuthResponseRecordV2 where
  collection_id : String
  collection_name : String
  id : String
deriving DecidableEq, Repr

/-- From `src/services/record_service.rs`, `handle_response_body`: try the
success shape; on failure parse the body as `ResponseError` (the `unwrap()`
panics — `none` — if that parse fails too), and wrap its status via
`StatusCode::from_u16(..).unwrap()` (panic when out of range).  The parses
of the two shapes are the external serde calls, passed as parameters. -/
def handle_response_body {E : Type} (parseE : String → Option E)
    (parseErr : String → Option ResponseError) (body : String) :
    Option (Except ApiError E) :=
  match parseE body with
  | some response => some (Except.ok response)
  | none =>
    match parseErr body with
    | none => none
    | some error =>
      match statusCodeFromU16 error.status with
      | none => none
      | some code => some (Except.error (ApiError.http code error.message))

/-- From `src/services/record_service.rs`, the body-handling tail of
`RecordService::delete`: an empty body is success; a non-empty body is
parsed as `ResponseError` and, only if that parse succeeds, turned into an
HTTP error (with the `StatusCode::from_u16(..).unwrap()` panic when the
parsed status is outside 100..=999); an unparseable non-empty body is
success. -/
def RecordService.delete (parseErr : String → Option ResponseError)
    (body : String) : Option (Except ApiError Unit) :=
  if body.isEmpty then some (Except.ok ())
  else
    match parseErr body with
    | some error =>
      match statusCodeFromU16 error.status with
      | none => none
      | some code => some (Except.error (ApiError.http code error.message))
    | none => some (Except.ok ())

/-- From `src/services/record_service.rs`, the auth-store synchronization
block of `RecordService::update` (run after the PATCH, before decoding the
return value).  `parseId` is `serde_json::from_str::<RecordIdOnly>` (the
minimal `{id}` parse), `parseT` is the full parse as the auth-record type,
`coll` is the service's `collection_id_or_name` and `body` the raw response
text.  The `unwrap()`s on `collection_id`/`collection_name` are guarded by
`is_some()`; the `unwrap()` on `record_id` is not, so a store that is
`is_some()` but has no `record_id` panics (`none`). -/
def RecordService.update_auth_sync {T : Type} (parseId : String → Option String)
    (parseT : String → Option T) (coll : String) (body : String)
    (s : AuthStoreV2 T) : Option (AuthStoreV2 T) :=
  if s.is_some then
    match s.collection_id, s.collection_name with
    | some auth_coll_id, some auth_coll_name =>
      if coll == auth_coll_id || coll == auth_coll_name then
        match parseId body with
        | some rec_id =>
          match s.record_id with
          | none => none
          | some auth_rec_id =>
            if rec_id == auth_rec_id then
              some (match parseT body with
                | some auth_record =>
                  { s with record_id := some rec_id, record := some auth_record }
                | none => { s with record_id := some rec_id })
            else some s
        | none => some s
      else some s
    | _, _ => none
  else some s

/-- From `src/services/record_service.rs`, the post-request portion of
`RecordService::auth_with_password`: the state written under the lock and
the value returned, as a function of the two independent decode outcomes
`tmp` (minimal shape) and `result` (full shape) of the same body.  When the
minimal decode succeeded, token, collection name/id and record id are
stored unconditionally, and the record is stored only when the full decode
also succeeded; the returned value is always `result`. -/
def RecordService.auth_with_password_sync {T : Type}
    (tmp : Except ApiError (AuthResponse DefaultAuthResponseRecordV2))
    (result : Except ApiError (AuthResponse T)) (s : AuthStoreV2 T) :
    Except ApiError (AuthResponse T) × AuthStoreV2 T :=
  match tmp with
  | Except.error _ => (result, s)
  | Except.ok response =>
    let s1 := { s with
      token := some response.token,
      collection_name := some response.record.collection_name,
      collection_id := some response.record.collection_id,
      record_id := some response.record.id }
    match result with
    | Except.error _ => (result, s1)
    | Except.ok actual_result => (result, { s1 with record := some actual_result.record })

/-- From `src/services/record_service.rs`, `RecordService::auth_with_password`
after the POST: the body is decoded twice via `handle_response_body` (first
against `AuthResponse<DefaultAuthResponseRecord>`, then against
`AuthResponse<T>`); either `handle_response_body` may panic (`none`), and the
state/return pair is `auth_with_password_sync` of the two outcomes. -/
def RecordService.auth_with_password {T : Type}
    (parseMin : String → Option (AuthResponse DefaultAuthResponseRecordV2))
    (parseFull : String → Option (AuthResponse T))
    (parseErr : String → Option ResponseError) (body : String)
    (s : AuthStoreV2 T) :
    Option (Except ApiError (AuthResponse T) × AuthStoreV2 T) :=
  match handle_response_body parseMin parseErr body with
  | none => none
  | some tmp =>
    match handle_response_body parseFull parseErr body with
    | none => none
    | some result => some (RecordService.auth_with_password_sync tmp result s)

/-- From `src/services/record_service.rs`, `RecordService::get_first_list_item`:
build list options through `ListOptions::from_view` forcing page 1, one item
per page and the given filter; call `get_list` (abstracted as `getList`); an
error is propagated, and a success pops the (at most one) item with
`page.items.pop().unwrap()` — which panics (`none`) when the page is empty.
The trailing `Err(ApiError::Http(StatusCode::NOT_FOUND, "There is no record
matching the filter.".to_string()))` of the source is unreachable: both arms
of the preceding `if let` return. -/
def RecordService.get_first_list_item {E : Type}
    (getList : ListOptions → Except ApiError (ListResponse E))
    (filter : String) (options : Option ViewOptions) :
    Option (Except ApiError E) :=
  let list_options := ListOptions.from_view (some 1) (some 1) (some filter) options
  match getList list_options with
  | Except.error err => some (Except.error err)
  | Except.ok page =>
    match page.items.getLast? with
    | some item => some (Except.ok item)
    | none => none

/-- From `src/services/record_service.rs`, the loop of
`RecordService::get_full_list`, with explicit fuel (`none` = the Rust loop
is still running after `fuel` iterations).  Each iteration requests
`ListOptions::paginated_and_skip(page_index, 1000)` from `get_list`
(abstracted as `getList`), propagates an error immediately, appends the
page's items, and continues (incrementing the page index) exactly when the
number of fetched items equals the page's reported `per_page`.  The `Nat`
component counts the `get_list` requests issued. -/
def fullListLoop {E : Type} (getList : ListOptions → Except ApiError (ListResponse E)) :
    Nat → Nat → List E × Nat → Option (Except ApiError (List E) × Nat)
  | 0, _, _ => none
  | fuel + 1, page_index, (items, count) =>
    match getList (ListOptions.paginated_and_skip page_index 1000) with
    | Except.error err => some (Except.error err, count + 1)
    | Except.ok page =>
      let number_of_fetched_items := page.items.length
      let items := items ++ page.items
      if number_of_fetched_items = page.per_page then
        fullListLoop getList fuel (page_index + 1) (items, count + 1)
      else
        some (Except.ok items, count + 1)

/-- From `src/services/record_service.rs`, `RecordService::get_full_list`:
the loop started at page index 1 with no accumulated items. -/
def RecordService.get_full_list {E : Type}
    (getList : ListOptions → Except ApiError (ListResponse E)) (fuel : Nat) :
    Option (Except ApiError (List E) × Nat) :=
  fullListLoop getList fuel 1 ([], 0)

/-- Stated from the spec's words for the refinement claim about
`get_full_list` (§8): the concatenation, in page order, of the items of the
successive `get_list` results for `per_page=1000, skip_total=true` and page
indices counting up from `page`, cut off after the first page whose item
count differs from its reported `per_page`, the first error propagated. -/
def specPageConcat {E : Type} (getList : ListOptions → Except ApiError (ListResponse E)) :
    Nat → Nat → Option (Except ApiError (List E))
  | _, 0 => none
  | page, fuel + 1 =>
    match getList (ListOptions.paginated_and_skip page 1000) with
    | Except.error err => some (Except.error err)
    | Except.ok p =>
      if p.items.length = p.per_page then
        (specPageConcat getList (page + 1) fuel).map (fun r => r.map (p.items ++ ·))
      else
        some (Except.ok p.items)

/-- A backend holding the records `items`, serving them in pages of size
`P` in original order: the request for page `k` (1-based) is answered with
the records at positions `(k-1)*P ..< k*P` and a reported `per_page` of
`P`, totals skipped (`-1` sentinels).  No request fails. -/
def pageServer {E : Type} (items : List E) (P : Nat) (opts : ListOptions) :
    Except ApiError (ListResponse E) :=
  let k := opts.page.getD 1
  Except.ok
    { items := (items.drop ((k - 1) * P)).take P
      page := k
      per_page := P
      total_items := -1
      total_pages := -1 }

/-! Concrete fixtures used by witnesses and counterexamples: sample external
decoders, stores and bodies on which the models evaluate by `decide`. -/

/-- Sample base64url decoder: knows only the segment `"p"`. -/
def sampleB64 : B64Decoder := fun s => if s = "p" then some [80, 65] else none

/-- Sample UTF-8 decoder: knows only the bytes `[80, 65]`. -/
def sampleUtf8 : Utf8Decoder := fun l => if l = [80, 65] then some "PA" else none

/-- Sample decoded token payload: an auth token expiring at second 99. -/
def samplePayload : JwtPayload :=
  { token_type := "auth", collection_id := "c1", refreshable := true, id := "u1", exp := 99 }

/-- Sample payload JSON parse: maps `"PA"` to `samplePayload`. -/
def sampleParse : JwtParse := fun s => if s = "PA" then some samplePayload else none

/-- A fully populated older-revision store whose collection is `_superusers`
and whose token `"h.p.s"` decodes (under the sample decoders) to
`samplePayload`. -/
def sampleSuperStore : AuthStore Unit :=
  { token := some "h.p.s", record := some (), collection_name := some "_superusers",
    collection_id := some "cid" }

/-- Error-shape parse returning an out-of-range HTTP status for body `"x"`. -/
def badStatusParse : String → Option ResponseError :=
  fun b => if b = "x" then some { message := "boom", status := 5 } else none

/-- Error-shape parse returning a well-formed 404 for body `"x"`. -/
def goodErrParse : String → Option ResponseError :=
  fun b => if b = "x" then some { message := "nf", status := 404 } else none

/-- Minimal-shape auth parse succeeding on body `"B"`. -/
def minParseW : String → Option (AuthResponse DefaultAuthResponseRecordV2) :=
  fun b =>
    if b = "B" then
      some { record := { collection_id := "cid1", collection_name := "users", id := "rid1" },
             token := "tok1" }
    else none

/-- Full-shape auth parse that always fails (caller type mismatch). -/
def noFullParseW : String → Option (AuthResponse Nat) := fun _ => none

/-- Error-shape parse succeeding on body `"B"` with status 400. -/
def bodyErrParse : String → Option ResponseError :=
  fun b => if b = "B" then some { message := "mismatch", status := 400 } else none

/-- An empty newer-revision auth store over `Nat` records. -/
def emptyStoreV2 : AuthStoreV2 Nat :=
  { token := none, record := none, collection_name := none, collection_id := none,
    record_id := none }

/-- A fully populated newer-revision auth store over `Nat` records. -/
def popStoreV2 : AuthStoreV2 Nat :=
  { token := some "tok", record := some 7, collection_name := some "users",
    collection_id := some "cid1", record_id := some "rid1" }

/-- Minimal `{id}` parse succeeding on body `"B"` with id `"rid1"`. -/
def parseIdW : String → Option String := fun b => if b = "B" then some "rid1" else none

/-- Minimal `{id}` parse succeeding on body `"B"` with id `"other"`. -/
def parseIdOther : String → Option String := fun b => if b = "B" then some "other" else none

/-- Full auth-record parse succeeding on body `"B"` with record `42`. -/
def parseTW : String → Option Nat := fun b => if b = "B" then some 42 else none

/-! Claim theorems. -/

/-- C4 (code evaluated at the failing input): with a single trailing slash,
`PocketBase::new` succeeds and stores the input minus that slash — but on an
input without a trailing slash it panics (`strip_suffix("/").unwrap()` on
`None`, modelled by `none`) instead of returning the error value the claim
requires. -/
theorem pocketbase_new_slash_stripped_and_no_slash_panics :
    PocketBase.new "http://localhost:8091/" = some "http://localhost:8091" ∧
    PocketBase.new "http://localhost:8091" = none := by
  constructor
  · decide
  · decide

/-- C9 (code evaluated at the failing input): the `src/pocketbase.rs`
revision of `from_view` panics (`none`) when no view options are given, and
drops `fields`/`expand`/`sort` to `None` when they are given — while the
`src/common.rs` revision behaves as the claim states on the same inputs. -/
theorem from_view_pb_revision_diverges :
    ListOptions.from_view_pb (some 1) (some 1) (some "f") none = none ∧
    ListOptions.from_view_pb (some 1) (some 1) (some "f")
        (some { fields := some "a", expand := some "b", sort := some "c" }) =
      some { page := some 1, per_page := some 1, skip_total := some true,
             filter := some "f", fields := none, expand := none, sort := none } ∧
    ListOptions.from_view (some 1) (some 1) (some "f")
        (some { fields := some "a", expand := some "b", sort := some "c" }) =
      { page := some 1, per_page := some 1, skip_total := some true,
        filter := some "f", fields := some "a", expand := some "b", sort := some "c" } ∧
    ListOptions.from_view (some 1) (some 1) (some "f") none =
      { page := some 1, per_page := some 1, skip_total := some true,
        filter := some "f", fields := none, expand := none, sort := none } := by
  refine ⟨by decide, by decide, by decide, by decide⟩

/-- C1 (code evaluated at the failing input): when the underlying `get_list`
succeeds but the page has no items (here: a backend with zero records),
`get_first_list_item` panics on `page.items.pop().unwrap()` (modelled by
`none`) instead of returning the synthetic 404 error; the line constructing
that error is unreachable in the source. -/
theorem get_first_list_item_empty_page_panics :
    RecordService.get_first_list_item (pageServer ([] : List Nat) 1) "f" none = none := by
  decide

/-- C7: `is_token_expired` is fail-closed — whenever the token payload fails
to decode it returns `true` — and when the payload decodes it returns `true`
exactly when the payload's `exp` is at most the current seconds-since-epoch
(so a strictly future `exp` yields `false`). -/
theorem is_token_expired_fail_closed_and_exp_bound (b64 : B64Decoder)
    (utf8 : Utf8Decoder) (parse : JwtParse) (now : Nat) (token : String) :
    (get_token_payload b64 utf8 parse token = none →
      is_token_expired b64 utf8 parse now token = true) ∧
    (∀ p, get_token_payload b64 utf8 parse token = some p →
      (is_token_expired b64 utf8 parse now token = true ↔ p.exp ≤ now)) := by
  constructor
  · intro h
    simp [is_token_expired, h]
  · intro p h
    simp only [is_token_expired, h]
    constructor
    · intro hexp
      by_contra hlt
      simp [Nat.lt_of_not_le hlt] at hexp
    · intro hle
      simp [Nat.not_lt_of_le hle]

/-- Witness for C7: under the sample decoders, the malformed token
`"garbage"` is expired (fail-closed), the well-formed token `"h.p.s"` with
`exp = 99` is expired at second 99 and not expired at second 98. -/
theorem is_token_expired_fail_closed_and_exp_bound_witness :
    is_token_expired sampleB64 sampleUtf8 sampleParse 50 "garbage" = true ∧
    is_token_expired sampleB64 sampleUtf8 sampleParse 99 "h.p.s" = true ∧
    is_token_expired sampleB64 sampleUtf8 sampleParse 98 "h.p.s" = false := by
  refine ⟨?_, ?_, ?_⟩
  · exact (is_token_expired_fail_closed_and_exp_bound sampleB64 sampleUtf8 sampleParse
      50 "garbage").1 (by decide)
  · exact ((is_token_expired_fail_closed_and_exp_bound sampleB64 sampleUtf8 sampleParse
      99 "h.p.s").2 samplePayload (by decide)).mpr (by decide)
  · have h := ((is_token_expired_fail_closed_and_exp_bound sampleB64 sampleUtf8 sampleParse
      98 "h.p.s").2 samplePayload (by decide))
    revert h
    decide

/-- C6: `is_superuser` is `false` whenever the store is not fully populated
or the stored token's payload fails to decode; otherwise it is `true` exactly
when the decoded payload's token type is `"auth"` and either the stored
collection name is `"_superusers"` or the payload's collection id is the
literal `"pbc_3142635823"`. -/
theorem is_superuser_characterization {T : Type} (b64 : B64Decoder)
    (utf8 : Utf8Decoder) (parse : JwtParse) (s : AuthStore T) :
    (s.is_some = false → AuthStore.is_superuser b64 utf8 parse s = false) ∧
    (∀ t, s.token = some t → get_token_payload b64 utf8 parse t = none →
      AuthStore.is_superuser b64 utf8 parse s = false) ∧
    (∀ t p, s.is_some = true → s.token = some t →
      get_token_payload b64 utf8 parse t = some p →
      (AuthStore.is_superuser b64 utf8 parse s = true ↔
        (p.token_type = "auth" ∧
          (s.collection_name = some "_superusers" ∨
            p.collection_id = "pbc_3142635823")))) := by
  refine ⟨?_, ?_, ?_⟩
  · intro h
    simp [AuthStore.is_superuser, h]
  · intro t ht hp
    simp only [AuthStore.is_superuser, ht, hp]
    split
    · rfl
    · rfl
  · intro t p hsome ht hp
    simp only [AuthStore.is_superuser, hsome, ht, hp, Bool.not_true, Bool.false_eq_true,
      if_false]
    cases hcn : s.collection_name with
    | none =>
      simp [Bool.and_eq_true, Bool.or_eq_true, beq_iff_eq]
    | some n =>
      simp [Bool.and_eq_true, Bool.or_eq_true, beq_iff_eq]

/-- Witness for C6: the sample store (fully populated, collection
`_superusers`, auth-typed payload) is a superuser, and the iff direction is
applied at that concrete input. -/
theorem is_superuser_characterization_witness :
    AuthStore.is_superuser sampleB64 sampleUtf8 sampleParse sampleSuperStore = true := by
  exact ((is_superuser_characterization sampleB64 sampleUtf8 sampleParse
      sampleSuperStore).2.2 "h.p.s" samplePayload (by decide) (by decide)
      (by decide)).mpr (by decide)

/-- C10: `is_superuser` does not consult token expiry — a fully populated
store with collection name `_superusers` whose token decodes to an
auth-typed payload is reported as superuser even when the payload's `exp`
is strictly in the past, while `is_valid` on the same state (and clock) is
`false`. -/
theorem is_superuser_ignores_expiry {T : Type} (b64 : B64Decoder)
    (utf8 : Utf8Decoder) (parse : JwtParse) (now : Nat) (s : AuthStore T)
    (t : String) (p : JwtPayload) (hsome : s.is_some = true)
    (ht : s.token = some t) (hcn : s.collection_name = some "_superusers")
    (hp : get_token_payload b64 utf8 parse t = some p)
    (hty : p.token_type = "auth") (hexp : p.exp < now) :
    AuthStore.is_superuser b64 utf8 parse s = true ∧
    AuthStore.is_valid b64 utf8 parse now s = false := by
  constructor
  · simp [AuthStore.is_superuser, hsome, ht, hp, hcn, hty]
  · simp [AuthStore.is_valid, hsome, ht, is_token_expired, hp,
      Nat.not_lt_of_le (Nat.le_of_lt hexp)]

/-- Witness for C10: the sample store's token payload expires at second 99;
at second 150 the store is still reported as superuser while `is_valid`
is `false`. -/
theorem is_superuser_ignores_expiry_witness :
    AuthStore.is_superuser sampleB64 sampleUtf8 sampleParse sampleSuperStore = true ∧
    AuthStore.is_valid sampleB64 sampleUtf8 sampleParse 150 sampleSuperStore = false := by
  exact is_superuser_ignores_expiry sampleB64 sampleUtf8 sampleParse 150
    sampleSuperStore "h.p.s" samplePayload (by decide) (by decide) (by decide)
    (by decide) (by decide) (by decide)

/-- C8 counterexample: a non-empty body that parses cleanly as the error
shape with status 5 makes `delete` panic on `StatusCode::from_u16(5).unwrap()`
(modelled by `none`), so it returns neither success nor the HTTP error the
claim requires. -/
theorem delete_clean_parse_bad_status_counterexample :
    badStatusParse "x" = some { message := "boom", status := 5 } ∧
    ("x" : String).isEmpty = false ∧
    RecordService.delete badStatusParse "x" = none := by
  refine ⟨by decide, by decide, by decide⟩

/-- C8 amended: `delete` succeeds exactly when the body is empty or the
non-empty body fails to parse as the error shape; when the non-empty body
parses cleanly it returns the backend-reported HTTP error if the parsed
status is within the representable range 100..=999 and panics otherwise. -/
theorem delete_lenient_success_characterization
    (parseErr : String → Option ResponseError) (body : String) :
    (RecordService.delete parseErr body = some (Except.ok ()) ↔
      (body.isEmpty = true ∨ parseErr body = none)) ∧
    (∀ m st, parseErr body = some { message := m, status := st } →
      body.isEmpty = false →
      ((100 ≤ st ∧ st ≤ 999) →
        RecordService.delete parseErr body = some (Except.error (ApiError.http st m))) ∧
      (¬(100 ≤ st ∧ st ≤ 999) →
        RecordService.delete parseErr body = none)) := by
  constructor
  · cases hemp : body.isEmpty with
    | true => simp [RecordService.delete, hemp]
    | false =>
      cases herr : parseErr body with
      | none => simp [RecordService.delete, hemp, herr]
      | some error =>
        simp only [RecordService.delete, hemp, Bool.false_eq_true, if_false, herr]
        cases hst : statusCodeFromU16 error.status with
        | none => simp [herr]
        | some code =>
          simp [herr]
  · intro m st herr hemp
    constructor
    · intro hrange
      simp [RecordService.delete, hemp, herr, statusCodeFromU16, hrange]
    · intro hrange
      simp [RecordService.delete, hemp, herr, statusCodeFromU16, hrange]

/-- Witness for C8's amended claim: an empty body succeeds, an unparseable
non-empty body succeeds (lenient policy), and a cleanly parsed 404 body
yields the HTTP error — each obtained by applying the characterization at a
concrete input. -/
theorem delete_lenient_success_characterization_witness :
    RecordService.delete goodErrParse "" = some (Except.ok ()) ∧
    RecordService.delete goodErrParse "y" = some (Except.ok ()) ∧
    RecordService.delete goodErrParse "x" = some (Except.error (ApiError.http 404 "nf")) := by
  refine ⟨?_, ?_, ?_⟩
  · exact (delete_lenient_success_characterization goodErrParse "").1.mpr
      (Or.inl (by decide))
  · exact (delete_lenient_success_characterization goodErrParse "y").1.mpr
      (Or.inr (by decide))
  · exact (((delete_lenient_success_characterization goodErrParse "x").2 "nf" 404
      (by decide) (by decide)).1 (by decide))

/-- C2: in `auth_with_password`, when neither body decode panics, the store
is left untouched exactly when the minimal decode failed; when the minimal
decode succeeded, token, collection name/id (and record id) are stored and
the record is stored exactly when the full decode also succeeded (otherwise
the previous record is kept); in every case the returned value is the
outcome of the independent full decode — so the call can return an error
while the store was already mutated. -/
theorem auth_with_password_state_vs_return {T : Type}
    (parseMin : String → Option (AuthResponse DefaultAuthResponseRecordV2))
    (parseFull : String → Option (AuthResponse T))
    (parseErr : String → Option ResponseError) (body : String) (s : AuthStoreV2 T) :
    (∀ e res, handle_response_body parseMin parseErr body = some (Except.error e) →
      handle_response_body parseFull parseErr body = some res →
      RecordService.auth_with_password parseMin parseFull parseErr body s =
        some (res, s)) ∧
    (∀ resp res, handle_response_body parseMin parseErr body = some (Except.ok resp) →
      handle_response_body parseFull parseErr body = some res →
      RecordService.auth_with_password parseMin parseFull parseErr body s =
        some (res,
          { s with
            token := some resp.token,
            collection_name := some resp.record.collection_name,
            collection_id := some resp.record.collection_id,
            record_id := some resp.record.id,
            record := match res with
              | Except.ok actual_result => some actual_result.record
              | Except.error _ => s.record })) := by
  constructor
  · intro e res hmin hfull
    simp [RecordService.auth_with_password, hmin, hfull,
      RecordService.auth_with_password_sync]
  · intro resp res hmin hfull
    cases res with
    | error e =>
      simp [RecordService.auth_with_password, hmin, hfull,
        RecordService.auth_with_password_sync]
    | ok actual_result =>
      simp [RecordService.auth_with_password, hmin, hfull,
        RecordService.auth_with_password_sync]

/-- Witness for C2: on body `"B"` the minimal decode succeeds, the full
decode (whose parse always fails) produces the backend error shape, and the
call returns that error while the store has already been populated with the
token and identity fields (record untouched). -/
theorem auth_with_password_state_vs_return_witness :
    RecordService.auth_with_password minParseW noFullParseW bodyErrParse "B" emptyStoreV2 =
      some (Except.error (ApiError.http 400 "mismatch"),
        { token := some "tok1", record := none, collection_name := some "users",
          collection_id := some "cid1", record_id := some "rid1" }) := by
  exact (auth_with_password_state_vs_return minParseW noFullParseW bodyErrParse "B"
      emptyStoreV2).2
    { record := { collection_id := "cid1", collection_name := "users", id := "rid1" },
      token := "tok1" }
    (Except.error (ApiError.http 400 "mismatch")) (by decide) (by decide)

/-- C5: for the auth-store synchronization of `update` — when the store is
fully populated (including `record_id`), the service's collection matches
the stored collection by id or by name, and the body's minimally parsed id
equals the stored record id, the stored record is replaced by the
re-decoded body; and whenever the body's parsed id differs from the stored
record id, the store is returned entirely unchanged. -/
theorem update_auth_sync_self_vs_other {T : Type}
    (parseId : String → Option String) (parseT : String → Option T)
    (coll : String) (body : String) (s : AuthStoreV2 T) :
    (∀ ci cn rid r, s.is_some = true → s.collection_id = some ci →
      s.collection_name = some cn → s.record_id = some rid →
      (coll = ci ∨ coll = cn) → parseId body = some rid → parseT body = some r →
      RecordService.update_auth_sync parseId parseT coll body s =
        some { s with record := some r }) ∧
    (∀ rid rid2, s.record_id = some rid → parseId body = some rid2 → rid2 ≠ rid →
      RecordService.update_auth_sync parseId parseT coll body s = some s) := by
  constructor
  · intro ci cn rid r hsome hci hcn hrid hcoll hpid hpt
    have hmatch : (coll == ci || coll == cn) = true := by
      cases hcoll with
      | inl h => simp [h]
      | inr h => simp [h]
    simp only [RecordService.update_auth_sync, hsome, if_true, hci, hcn, hmatch, hpid,
      hrid, hpt, beq_self_eq_true, if_true]
  · intro rid rid2 hrid hpid hne
    cases hsome : s.is_some with
    | false => simp [RecordService.update_auth_sync, hsome]
    | true =>
      cases hci : s.collection_id with
      | none => simp [AuthStoreV2.is_some, hci] at hsome
      | some ci =>
        cases hcn : s.collection_name with
        | none => simp [AuthStoreV2.is_some, hcn] at hsome
        | some cn =>
          cases hmatch : (coll == ci || coll == cn) with
          | false => simp [RecordService.update_auth_sync, hsome, hci, hcn, hmatch]
          | true =>
            have hbeq : (rid2 == rid) = false := by
              simp [hne]
            simp [RecordService.update_auth_sync, hsome, hci, hcn, hmatch, hpid, hrid,
              hbeq]

/-- Witness for C5: on the populated store, a self-update (body id `"rid1"`)
replaces the record by the re-decoded body value `42`, and a foreign-record
update (body id `"other"`) leaves the store unchanged. -/
theorem update_auth_sync_self_vs_other_witness :
    RecordService.update_auth_sync parseIdW parseTW "users" "B" popStoreV2 =
      some { popStoreV2 with record := some 42 } ∧
    RecordService.update_auth_sync parseIdOther parseTW "users" "B" popStoreV2 =
      some popStoreV2 := by
  constructor
  · exact (update_auth_sync_self_vs_other parseIdW parseTW "users" "B" popStoreV2).1
      "cid1" "users" "rid1" 42 (by decide) (by decide) (by decide) (by decide)
      (Or.inr (by decide)) (by decide) (by decide)
  · exact (update_auth_sync_self_vs_other parseIdOther parseTW "users" "B" popStoreV2).2
      "rid1" "other" (by decide) (by decide) (by decide)

/-- Helper: the accumulator-passing loop of `get_full_list` computes the
spec-side page concatenation, prefixed by the accumulated items (the request
count is projected away). -/
theorem fullListLoop_eq_specPageConcat {E : Type}
    (getList : ListOptions → Except ApiError (ListResponse E)) :
    ∀ (fuel page c : Nat) (acc : List E),
      (fullListLoop getList fuel page (acc, c)).map Prod.fst =
        (specPageConcat getList page fuel).map (Except.map (acc ++ ·)) := by
  intro fuel
  induction fuel with
  | zero => intro page c acc; rfl
  | succ fuel ih =>
    intro page c acc
    simp only [fullListLoop, specPageConcat]
    cases hg : getList (ListOptions.paginated_and_skip page 1000) with
    | error err => rfl
    | ok p =>
      by_cases hc : p.items.length = p.per_page
      · simp only [hc, if_true, ih (page + 1) (c + 1) (acc ++ p.items)]
        cases hs : specPageConcat getList (page + 1) fuel with
        | none => rfl
        | some r =>
          cases r with
          | error e => rfl
          | ok l => simp [Except.map, List.append_assoc]
      · simp [hc, Except.map]

/-- Helper: running the `get_full_list` loop against `pageServer items P`
from page `k ≥ 1` returns all records from position `(k-1)*P` on and issues
one request per full page plus one for the final short page. -/
theorem fullListLoop_pageServer {E : Type} (P : Nat) (hP : 0 < P) (items : List E) :
    ∀ (fuel k c : Nat) (acc : List E), 1 ≤ k →
      (items.drop ((k - 1) * P)).length / P + 1 ≤ fuel →
      fullListLoop (pageServer items P) fuel k (acc, c) =
        some (Except.ok (acc ++ items.drop ((k - 1) * P)),
          c + ((items.drop ((k - 1) * P)).length / P + 1)) := by
  intro fuel
  induction fuel with
  | zero => intro k c acc hk hfuel; exact absurd hfuel (Nat.not_succ_le_zero _)
  | succ fuel ih =>
    intro k c acc hk hfuel
    obtain ⟨n, rfl⟩ : ∃ n, k = n + 1 := ⟨k - 1, by omega⟩
    have h21 : n + 2 - 1 = n + 1 := rfl
    simp only [Nat.add_sub_cancel] at hfuel ⊢
    simp only [fullListLoop, pageServer, ListOptions.paginated_and_skip,
      ListOptions.default, Option.getD_some, Nat.add_sub_cancel]
    by_cases hc : P ≤ (items.drop (n * P)).length
    · have hlen : ((items.drop (n * P)).take P).length = P := by
        rw [List.length_take]
        exact Nat.min_eq_left hc
      have hdiv : (items.drop (n * P)).length / P =
          ((items.drop (n * P)).length - P) / P + 1 := Nat.div_eq_sub_div hP hc
      have hdrop : items.drop ((n + 1) * P) = (items.drop (n * P)).drop P := by
        rw [List.drop_drop, Nat.succ_mul]
      have hlen2 : (items.drop ((n + 1) * P)).length = (items.drop (n * P)).length - P := by
        rw [hdrop, List.length_drop]
      simp only [hlen, if_true]
      rw [ih (n + 2) (c + 1) (acc ++ (items.drop (n * P)).take P) (by omega)
        (by rw [h21, hlen2]; omega)]
      simp only [h21, hdrop, hlen2]
      rw [List.append_assoc, List.take_append_drop]
      have hcount : c + 1 + (((items.drop (n * P)).drop P).length / P + 1) =
          c + ((items.drop (n * P)).length / P + 1) := by
        rw [List.length_drop]
        omega
      rw [hcount]
    · have hlt : (items.drop (n * P)).length < P := Nat.lt_of_not_le hc
      have hlen : ((items.drop (n * P)).take P).length = (items.drop (n * P)).length := by
        rw [List.length_take]
        exact Nat.min_eq_right (Nat.le_of_lt hlt)
      have hne : ((items.drop (n * P)).take P).length ≠ P := by
        rw [hlen]
        omega
      simp only [hlen, if_neg (by omega : ¬ (items.drop (n * P)).length = P)]
      rw [List.take_of_length_le (Nat.le_of_lt hlt)]
      rw [Nat.div_eq_of_lt hlt]

/-- C3 counterexample: a backend of size N = 1 served with page size P = 1
(P divides N) answers `get_full_list` with all items in 2 requests, while
the claim demands ceil(N/P) = (1 + 1 - 1) / 1 = 1 requests. -/
theorem get_full_list_requests_counterexample :
    RecordService.get_full_list (pageServer [0] 1) 3 = some (Except.ok [0], 2) ∧
    (1 + 1 - 1) / 1 = 1 ∧ (2 : Nat) ≠ 1 := by
  refine ⟨by decide, by decide, by decide⟩

/-- C3 amended: `get_full_list` equals the page-order concatenation of the
successive `get_list` results for `per_page=1000, skip_total=true` and page
indices from 1, stopping after the first page whose item count differs from
its reported `per_page` and propagating the first error; and against a
backend of size N served in pages of size P > 0 it returns exactly the N
items in original server order using N/P + 1 requests (floor division) —
which is ceil(N/P) when P does not divide N, and one more than ceil(N/P)
when P divides N (including N = 0). -/
theorem get_full_list_pagination {E : Type}
    (getList : ListOptions → Except ApiError (ListResponse E)) (fuel : Nat)
    (items : List E) (P fuel2 : Nat) :
    ((RecordService.get_full_list getList fuel).map Prod.fst =
      specPageConcat getList 1 fuel) ∧
    (0 < P → items.length / P + 1 ≤ fuel2 →
      RecordService.get_full_list (pageServer items P) fuel2 =
        some (Except.ok items, items.length / P + 1)) := by
  constructor
  · rw [RecordService.get_full_list, fullListLoop_eq_specPageConcat getList fuel 1 0 []]
    cases hs : specPageConcat getList 1 fuel with
    | none => rfl
    | some r =>
      cases r with
      | error e => rfl
      | ok l => simp [Except.map]
  · intro hP hfuel
    rw [RecordService.get_full_list,
      fullListLoop_pageServer P hP items fuel2 1 0 [] (by omega)
        (by simpa using hfuel)]
    simp

/-- Witness for C3's amended claim: three records served two per page come
back complete and in order after 3/2 + 1 = 2 requests. -/
theorem get_full_list_pagination_witness :
    RecordService.get_full_list (pageServer [10, 20, 30] 2) 5 =
      some (Except.ok [10, 20, 30], 2) := by
  exact (get_full_list_pagination (pageServer [10, 20, 30] 2) 5 [10, 20, 30] 2 5).2
    (by decide) (by decide)

end Pbrsdk
